import Mathlib

/-!
Verification of the Peplink warranty checker (src/index.js) against its
natural-language specification.

The JavaScript program is shallowly embedded below.  Dates are modelled as
`Int` millisecond timestamps (the value of `Date.prototype.getTime`); an
unparseable date string (`new Date(s)` yielding an Invalid Date, whose time
value is NaN) is modelled by an oracle `parseDate : String → Option Int`
returning `none`, and every comparison a NaN participates in is `false`,
exactly as in JavaScript.  JavaScript falsiness of the string-valued fields
(`undefined`, `null`, `""` are all falsy) is modelled by the empty string.
Network responses are supplied as explicit inputs, so the whole run is a
pure function of its environment.
-/

namespace Peplink

/-- Milliseconds in a day, `24 * 60 * 60 * 1000` from `diffInDays`. -/
def msInDay : Int := 24 * 60 * 60 * 1000

/-- Embedding of `diffInDays(date1, date2) = Math.ceil((date1 - date2) / msInDay)`.
JavaScript divides as real numbers and then takes the ceiling; for the
positive divisor `msInDay` the ceiling of the real quotient equals the
negated floor-division of the negated dividend, and Lean's `Int` division
by a positive integer is floor division. -/
def diffInDays (date1 date2 : Int) : Int := -((date2 - date1) / msInDay)

/-- A character kept by the regex class `[a-zA-Z0-9]` of
`device.sn.replace(/[^a-zA-Z0-9]/g, '')`. -/
def isAsciiAlnum (c : Char) : Bool :=
  (('a' ≤ c && c ≤ 'z') || ('A' ≤ c && c ≤ 'Z') || ('0' ≤ c && c ≤ '9'))

/-- Embedding of the serial normalization
`device.sn.replace(/[^a-zA-Z0-9]/g, '')`: keep exactly the ASCII
alphanumeric characters, in order. -/
def normalizeSerial (s : String) : String :=
  String.mk (s.toList.filter isAsciiAlnum)

/-- The fixed CSV header pushed first into `csvLines`. -/
def csvHeader : String :=
  "org_name,serial_number,warranty_expiry_date,days_until_expiry,is_expired"

/-- Embedding of one pushed CSV row
`"${orgName}","${serial}","${device.expiry_date}","${daysLeft}","${isExpired}"`:
each field wrapped in double quotes, fields inserted verbatim (no escaping),
with `device.expired` rendered as YES/NO. -/
def csvRow (orgName serial expiryLiteral : String) (daysLeft : Int)
    (expired : Bool) : String :=
  "\"" ++ orgName ++ "\",\"" ++ serial ++ "\",\"" ++ expiryLiteral ++ "\",\""
    ++ toString daysLeft ++ "\",\"" ++ (if expired then "YES" else "NO") ++ "\""

/-- A device record as read from the device-list JSON: the fields
`sn`, `expiry_date` and `expired` that `main` uses.  The empty string
stands for a missing or empty (JS-falsy) field. -/
structure DeviceJson where
  sn : String
  expiry_date : String
  expired : Bool
deriving Repr, DecidableEq

/-- An organization record as read from the organization JSON:
the fields `id` and `name` that `main` uses. -/
structure OrgJson where
  id : String
  name : String
deriving Repr, DecidableEq

/-- The body of the device-selection loop (lines 156-175 of index.js):
skip when `sn` or `expiry_date` is falsy; otherwise normalize the serial,
parse the expiry date, and emit a row iff the parsed date compares
`<= cutoffDate` (an Invalid Date compares false).  `now` is the run's
single `new Date()`; the cutoff is `now + 90 * 24 * 60 * 60 * 1000`. -/
def deviceRow (parseDate : String → Option Int) (now : Int) (orgName : String)
    (d : DeviceJson) : Option String :=
  if d.sn = "" ∨ d.expiry_date = "" then
    none
  else
    let serial := normalizeSerial d.sn
    match parseDate d.expiry_date with
    | none => none
    | some expiryDate =>
      if expiryDate ≤ now + 90 * msInDay then
        some (csvRow orgName serial d.expiry_date (diffInDays expiryDate now) d.expired)
      else
        none

/-- The token endpoint's HTTP response: `response.ok` (2xx), `response.status`,
and the raw body text. -/
structure TokenResponse where
  ok : Bool
  status : Nat
  body : String
deriving Repr, DecidableEq

/-- Outcome of `JSON.parse` on the token body, abstracted to the one lookup
`getBearerToken` performs: either the parse throws, or it yields a value whose
`access_token` member is absent/non-string-falsy (`none`), or is the string
carried by `some`. -/
inductive JsonTokenBody where
  | malformed
  | value (accessToken : Option String)
deriving Repr, DecidableEq

/-- The distinct failure modes of `getBearerToken`, one per `throw` site. -/
inductive TokenError where
  | missingCreds
  | requestFailed (status : Nat) (body : String)
  | malformedBody
  | missingToken
deriving Repr, DecidableEq

/-- Embedding of `getBearerToken` (lines 20-57 of index.js): fail if either
credential is falsy; otherwise the response is examined — non-2xx fails with
status and raw body, an unparseable body fails, a parsed body whose
`access_token` is falsy (absent or empty) fails, and otherwise the
`access_token` string is returned. -/
def getBearerToken (clientId clientSecret : String) (resp : TokenResponse)
    (parseJson : String → JsonTokenBody) : Except TokenError String :=
  if clientId = "" ∨ clientSecret = "" then
    .error .missingCreds
  else if resp.ok = false then
    .error (.requestFailed resp.status resp.body)
  else
    match parseJson resp.body with
    | .malformed => .error .malformedBody
    | .value none => .error .missingToken
    | .value (some t) => if t = "" then .error .missingToken else .ok t

/-- Result of one REST fetch in `main`: a non-2xx status (which `main` turns
into a thrown error carrying status and body), a `JSON.parse` failure
(also thrown), or the parsed payload. -/
inductive FetchResult (α : Type) where
  | httpError (status : Nat) (body : String)
  | parseError
  | ok (value : α)

/-- The SMTP settings read from the environment in `sendEmailWithCSV`;
the empty string stands for a missing (falsy) value.  `SMTP_FROM` is
optional and irrelevant to the checked behaviour. -/
structure SmtpConfig where
  host : String
  port : String
  user : String
  pass : String
  uto : String
deriving Repr, DecidableEq

/-- What became of the one `sendEmailWithCSV` call of a run. -/
inductive EmailOutcome where
  | missingConfig
  | sendFailed
  | sent
deriving Repr, DecidableEq

/-- Embedding of `sendEmailWithCSV` (lines 198-243): if any required SMTP
setting is falsy it logs and returns without attempting a send; otherwise
`transporter.sendMail` either throws (caught and logged) or succeeds.
Either way the function returns normally. -/
def sendEmailWithCSV (cfg : SmtpConfig) (sendFails : Bool) : EmailOutcome :=
  if cfg.host = "" ∨ cfg.port = "" ∨ cfg.user = "" ∨ cfg.pass = "" ∨ cfg.uto = "" then
    .missingConfig
  else if sendFails then .sendFailed else .sent

/-- The run's whole external environment: credentials, the responses each
endpoint would give, the date-parse oracle, the clock, and the SMTP side. -/
structure Env where
  clientId : String
  clientSecret : String
  tokenResp : TokenResponse
  tokenParse : String → JsonTokenBody
  orgResp : FetchResult (Option (List OrgJson))
  devResp : String → FetchResult (List DeviceJson)
  parseDate : String → Option Int
  now : Int
  smtp : SmtpConfig
  smtpSendFails : Bool

/-- The rows contributed by one organization (lines 126-175): a failed or
unparseable device fetch is caught, logged and skipped (`continue`), a
missing/empty device list contributes nothing, and otherwise each device
goes through `deviceRow` in order. -/
def orgLines (env : Env) (org : OrgJson) : List String :=
  match env.devResp org.id with
  | .httpError _ _ => []
  | .parseError => []
  | .ok devices => devices.filterMap (deviceRow env.parseDate env.now org.name)

/-- The observable outcome of one run of `main`. -/
structure RunResult where
  exitCode : Nat
  orgFetchAttempted : Bool
  devFetchAttempted : List String
  csvLines : Option (List String)
  emailOutcome : Option EmailOutcome

/-- Embedding of `main` (lines 67-192) followed by process exit: a token
failure exits 1 before the organization fetch; an organization fetch or
parse failure exits 1; a missing or empty organization array returns early
(exit 0) with no CSV and no email; otherwise the CSV is built — header
first, then each organization's rows in encounter order — and
`sendEmailWithCSV` is called on it (in both the empty and non-empty
branches), after which the process exits 0. -/
def runMain (env : Env) : RunResult :=
  match getBearerToken env.clientId env.clientSecret env.tokenResp env.tokenParse with
  | .error _ =>
    { exitCode := 1, orgFetchAttempted := false, devFetchAttempted := [],
      csvLines := none, emailOutcome := none }
  | .ok _token =>
    match env.orgResp with
    | .httpError _ _ =>
      { exitCode := 1, orgFetchAttempted := true, devFetchAttempted := [],
        csvLines := none, emailOutcome := none }
    | .parseError =>
      { exitCode := 1, orgFetchAttempted := true, devFetchAttempted := [],
        csvLines := none, emailOutcome := none }
    | .ok data =>
      match data with
      | none =>
        { exitCode := 0, orgFetchAttempted := true, devFetchAttempted := [],
          csvLines := none, emailOutcome := none }
      | some orgs =>
        if orgs.isEmpty then
          { exitCode := 0, orgFetchAttempted := true, devFetchAttempted := [],
            csvLines := none, emailOutcome := none }
        else
          { exitCode := 0, orgFetchAttempted := true,
            devFetchAttempted := orgs.map (fun o => o.id),
            csvLines := some (csvHeader :: orgs.flatMap (orgLines env)),
            emailOutcome := some (sendEmailWithCSV env.smtp env.smtpSendFails) }

/-! Concrete environments used to evaluate the pipeline on closed inputs. -/

/-- A successful token response. -/
def tokenRespOk : TokenResponse := ⟨true, 200, "tokenbody"⟩

/-- A parse oracle that finds a non-empty `access_token`. -/
def tokenParseOk : String → JsonTokenBody := fun _ => .value (some "tok123")

/-- A complete SMTP configuration. -/
def smtpFull : SmtpConfig := ⟨"smtp.example.com", "465", "user", "pass", "ops@example.com"⟩

/-- An SMTP configuration with a blank `SMTP_HOST`. -/
def smtpNoHost : SmtpConfig := ⟨"", "465", "user", "pass", "ops@example.com"⟩

/-- Two organizations. -/
def orgA : OrgJson := ⟨"10", "Org A"⟩

/-- Second organization. -/
def orgB : OrgJson := ⟨"20", "Org B"⟩

/-- A device with a serial containing separators, expiring in 45 days
(under `parseDateA` and `now = 0`). -/
def devQualifying : DeviceJson := ⟨"AB-12 34", "2025-01-01", false⟩

/-- A date-parse oracle: the one literal used by `devQualifying` parses to
day 45; everything else is an Invalid Date. -/
def parseDateA : String → Option Int :=
  fun s => if s = "2025-01-01" then some (45 * msInDay) else none

/-- A run whose organization fetch succeeds with an empty list. -/
def envZeroOrgs : Env :=
  { clientId := "id", clientSecret := "sec",
    tokenResp := tokenRespOk, tokenParse := tokenParseOk,
    orgResp := .ok (some []), devResp := fun _ => .ok [],
    parseDate := parseDateA, now := 0,
    smtp := smtpFull, smtpSendFails := false }

/-- A fully successful run except that `SMTP_HOST` is blank. -/
def envNoSmtp : Env :=
  { clientId := "id", clientSecret := "sec",
    tokenResp := tokenRespOk, tokenParse := tokenParseOk,
    orgResp := .ok (some [orgB]),
    devResp := fun i => if i = "20" then .ok [devQualifying] else .ok [],
    parseDate := parseDateA, now := 0,
    smtp := smtpNoHost, smtpSendFails := false }

/-- A run in which org A's device fetch returns a 500 and org B succeeds
with one qualifying device. -/
def envPartialFail : Env :=
  { clientId := "id", clientSecret := "sec",
    tokenResp := tokenRespOk, tokenParse := tokenParseOk,
    orgResp := .ok (some [orgA, orgB]),
    devResp := fun i => if i = "20" then .ok [devQualifying] else .httpError 500 "boom",
    parseDate := parseDateA, now := 0,
    smtp := smtpFull, smtpSendFails := false }

/-- A fully successful run whose SMTP send throws. -/
def envSendFails : Env :=
  { clientId := "id", clientSecret := "sec",
    tokenResp := tokenRespOk, tokenParse := tokenParseOk,
    orgResp := .ok (some [orgB]),
    devResp := fun i => if i = "20" then .ok [devQualifying] else .ok [],
    parseDate := parseDateA, now := 0,
    smtp := smtpFull, smtpSendFails := true }

/-! Theorems for the claims. -/

/-- C3 counterexample: a device that expired exactly one millisecond ago
(`date1 = 0`, `now = 1`) has a strictly negative `expiryDate − now`, yet
`diffInDays` returns 0 — `Math.ceil` of a tiny negative quotient is 0 —
so the sign of `daysUntilExpiry` does not always match the sign of
`(expiryDate − now)`. -/
theorem diffInDays_sign_counterexample :
    diffInDays 0 1 = 0 ∧ (0 : Int) - 1 < 0 ∧
    Int.sign (diffInDays 0 1) ≠ Int.sign ((0 : Int) - 1) := by
  refine ⟨by decide, by decide, by decide⟩

/-- C3 (amended): `daysUntilExpiry = diffInDays expiryDate now` is the
ceiling of `(expiryDate − now)` in whole days (characterized by the two
bracketing inequalities); it is 0 for a device expiring exactly at `now`
and −10 for one that expired exactly 10 days ago; it is positive exactly
when `expiryDate − now` is positive and nonpositive exactly when
`expiryDate − now` is nonpositive, but for a device expired strictly less
than one full day it is 0 while `expiryDate − now` is negative. -/
theorem diffInDays_ceil_spec (date1 date2 : Int) :
    msInDay * (diffInDays date1 date2 - 1) < date1 - date2 ∧
    date1 - date2 ≤ msInDay * diffInDays date1 date2 ∧
    diffInDays date2 date2 = 0 ∧
    diffInDays (date2 - 10 * msInDay) date2 = -10 ∧
    (0 < diffInDays date1 date2 ↔ 0 < date1 - date2) ∧
    (diffInDays date1 date2 ≤ 0 ↔ date1 - date2 ≤ 0) := by
  simp only [diffInDays, msInDay]
  omega

/-- C8: serial normalization keeps exactly the characters inside
`[A-Za-z0-9]` (stated as equality with the list filter) and is idempotent. -/
theorem normalizeSerial_idempotent (s : String) :
    normalizeSerial (normalizeSerial s) = normalizeSerial s ∧
    (normalizeSerial s).toList = s.toList.filter isAsciiAlnum := by
  refine ⟨?_, rfl⟩
  show String.mk (((s.toList.filter isAsciiAlnum)).filter isAsciiAlnum) = _
  rw [List.filter_filter]
  simp [normalizeSerial]

/-- C1: a device with a non-empty serial and an expiry date that parses to
`t` contributes a row exactly when `t ≤ now + 90 days` (inclusive); the
upstream `expired` flag never affects membership; and a device with a
missing serial, a missing expiry date, or an unparseable expiry date
contributes no row. -/
theorem deviceRow_membership (parseDate : String → Option Int) (now : Int)
    (orgName : String) (d : DeviceJson) :
    (∀ t, d.sn ≠ "" → d.expiry_date ≠ "" → parseDate d.expiry_date = some t →
      ((deviceRow parseDate now orgName d).isSome ↔ t ≤ now + 90 * msInDay)) ∧
    (∀ b, (deviceRow parseDate now orgName { d with expired := b }).isSome
        = (deviceRow parseDate now orgName d).isSome) ∧
    ((d.sn = "" ∨ d.expiry_date = "" ∨ parseDate d.expiry_date = none) →
      deviceRow parseDate now orgName d = none) := by
  refine ⟨?_, ?_, ?_⟩
  · intro t hsn hed hp
    unfold deviceRow
    rw [if_neg (fun h => h.elim hsn hed)]
    simp only [hp]
    by_cases hc : t ≤ now + 90 * msInDay
    · simp [hc]
    · simp [hc]
  · intro b
    cases hpd : parseDate d.expiry_date with
    | none => by_cases h1 : d.sn = "" ∨ d.expiry_date = "" <;> simp [deviceRow, h1, hpd]
    | some t =>
      by_cases h1 : d.sn = "" ∨ d.expiry_date = "" <;>
        by_cases hc : t ≤ now + 90 * msInDay <;>
          simp [deviceRow, h1, hpd, hc]
  · intro h
    rcases h with h | h | h
    · simp [deviceRow, h]
    · simp [deviceRow, h]
    · unfold deviceRow
      simp only [h]
      split <;> rfl

/-- C1 witness: the concrete qualifying device (serial `AB-12 34`, expiry
parsing to day 45, `now = 0`) is included, per the main theorem. -/
theorem deviceRow_membership_witness :
    devQualifying.sn ≠ "" ∧
    ((deviceRow parseDateA 0 "Org B" devQualifying).isSome ↔
      45 * msInDay ≤ 0 + 90 * msInDay) :=
  ⟨by decide,
    (deviceRow_membership parseDateA 0 "Org B" devQualifying).1 (45 * msInDay)
      (by decide) (by decide) (by decide)⟩

/-- C10: a device whose serial is non-empty but consists only of
non-alphanumeric characters passes the missing-serial check, and when its
expiry qualifies, the emitted row carries the empty string in the
serial-number field. -/
theorem nonAlnum_serial_empty_field (parseDate : String → Option Int)
    (now t : Int) (orgName : String) (d : DeviceJson)
    (hsn : d.sn ≠ "")
    (hall : ∀ c ∈ d.sn.toList, isAsciiAlnum c = false)
    (hed : d.expiry_date ≠ "")
    (hp : parseDate d.expiry_date = some t)
    (hcut : t ≤ now + 90 * msInDay) :
    deviceRow parseDate now orgName d =
      some (csvRow orgName "" d.expiry_date (diffInDays t now) d.expired) := by
  have hser : normalizeSerial d.sn = "" := by
    unfold normalizeSerial
    have hf : d.sn.toList.filter isAsciiAlnum = [] :=
      List.filter_eq_nil_iff.mpr (by simpa using hall)
    rw [hf]
  unfold deviceRow
  rw [if_neg (fun h => h.elim hsn hed)]
  simp only [hp, hser]
  rw [if_pos hcut]

/-- C10 witness: the serial `"- -"` is non-empty, passes the check, and
produces a row with an empty serial field. -/
theorem nonAlnum_serial_empty_field_witness :
    deviceRow (fun _ => some 0) 0 "Org" ⟨"- -", "d1", true⟩ =
      some (csvRow "Org" "" "d1" (diffInDays 0 0) true) :=
  nonAlnum_serial_empty_field (fun _ => some 0) 0 0 "Org" ⟨"- -", "d1", true⟩
    (by decide) (by decide) (by decide) rfl (by decide)

/-- Helper: the only branch of `runMain` that calls `sendEmailWithCSV` is
the final one, which exits 0 and passes the environment's SMTP settings. -/
theorem runMain_email_inv (env : Env) (o : EmailOutcome)
    (ho : (runMain env).emailOutcome = some o) :
    (runMain env).exitCode = 0 ∧ o = sendEmailWithCSV env.smtp env.smtpSendFails := by
  rcases htok : getBearerToken env.clientId env.clientSecret env.tokenResp env.tokenParse with e | tok
  · simp [runMain, htok] at ho
  · rcases horg : env.orgResp with ⟨s, b⟩ | _ | data
    · simp [runMain, htok, horg] at ho
    · simp [runMain, htok, horg] at ho
    · rcases data with _ | ⟨_ | ⟨o1, orgs⟩⟩
      · simp [runMain, htok, horg] at ho
      · simp [runMain, htok, horg] at ho
      · simp only [runMain, htok, horg, List.isEmpty_cons] at ho ⊢
        exact ⟨rfl, (Option.some.inj ho).symm⟩

/-- C2 counterexample: with a valid token and an organization fetch that
succeeds with zero organizations, the run exits 0 but builds no CSV and
never reaches `sendEmailWithCSV` — no report is dispatched or attempted. -/
theorem zeroOrgs_counterexample :
    envZeroOrgs.orgResp = .ok (some []) ∧
    (runMain envZeroOrgs).exitCode = 0 ∧
    (runMain envZeroOrgs).csvLines = none ∧
    (runMain envZeroOrgs).emailOutcome = none :=
  ⟨rfl, rfl, rfl, rfl⟩

/-- C2 (amended): when the organization fetch succeeds but returns zero
organizations or a missing organization list, the run terminates gracefully
with exit code 0, producing no report and dispatching no email. -/
theorem zeroOrgs_graceful (env : Env) (tok : String)
    (htok : getBearerToken env.clientId env.clientSecret env.tokenResp
      env.tokenParse = .ok tok)
    (horg : env.orgResp = .ok (some []) ∨ env.orgResp = .ok none) :
    (runMain env).exitCode = 0 ∧ (runMain env).csvLines = none ∧
      (runMain env).emailOutcome = none := by
  rcases horg with h | h <;> simp [runMain, htok, h]

/-- C2 witness: the zero-organization environment instantiates the amended
statement. -/
theorem zeroOrgs_graceful_witness :
    (runMain envZeroOrgs).exitCode = 0 ∧ (runMain envZeroOrgs).csvLines = none ∧
      (runMain envZeroOrgs).emailOutcome = none :=
  zeroOrgs_graceful envZeroOrgs "tok123" rfl (Or.inl rfl)

/-- C6: with non-blank credentials, `getBearerToken` succeeds with exactly
the `access_token` string iff the response is 2xx and its body parses to a
non-empty `access_token`; a non-2xx response fails carrying status and raw
body, an unparseable body fails as malformed, and a parsed body with an
absent or empty `access_token` fails as missing; and any token failure makes
the run exit 1 before the organization or any device fetch is attempted. -/
theorem getBearerToken_spec (cid cs : String) (resp : TokenResponse)
    (parseJson : String → JsonTokenBody) (hcid : cid ≠ "") (hcs : cs ≠ "") :
    (∀ t, getBearerToken cid cs resp parseJson = .ok t ↔
      (resp.ok = true ∧ parseJson resp.body = .value (some t) ∧ t ≠ "")) ∧
    (resp.ok = false →
      getBearerToken cid cs resp parseJson =
        .error (.requestFailed resp.status resp.body)) ∧
    (resp.ok = true → parseJson resp.body = .malformed →
      getBearerToken cid cs resp parseJson = .error .malformedBody) ∧
    (resp.ok = true →
      (parseJson resp.body = .value none ∨ parseJson resp.body = .value (some "")) →
      getBearerToken cid cs resp parseJson = .error .missingToken) ∧
    (∀ env : Env, ∀ e : TokenError,
      getBearerToken env.clientId env.clientSecret env.tokenResp
        env.tokenParse = .error e →
      (runMain env).exitCode = 1 ∧ (runMain env).orgFetchAttempted = false ∧
        (runMain env).devFetchAttempted = []) := by
  have hcred : ¬(cid = "" ∨ cs = "") := fun h => h.elim hcid hcs
  refine ⟨?_, ?_, ?_, ?_, ?_⟩
  · intro t
    cases hok : resp.ok
    · simp [getBearerToken, hcred, hok]
    · cases hpb : parseJson resp.body with
      | malformed => simp [getBearerToken, hcred, hok, hpb]
      | value a =>
        cases a with
        | none => simp [getBearerToken, hcred, hok, hpb]
        | some u =>
          have hg : getBearerToken cid cs resp parseJson =
              (if u = "" then .error .missingToken else .ok u) := by
            unfold getBearerToken
            rw [if_neg hcred, if_neg (by simp [hok]), hpb]
          by_cases hu : u = ""
          · rw [hg, if_pos hu]
            constructor
            · intro h
              exact absurd h (by simp)
            · rintro ⟨-, h2, h3⟩
              injection h2 with h4
              injection h4 with h5
              exact absurd (h5.symm.trans hu) h3
          · rw [hg, if_neg hu]
            constructor
            · intro h
              injection h with h5
              subst h5
              exact ⟨rfl, rfl, hu⟩
            · rintro ⟨-, h2, -⟩
              injection h2 with h4
              injection h4 with h5
              rw [h5]
  · intro hok
    simp [getBearerToken, hcred, hok]
  · intro hok hpb
    simp [getBearerToken, hcred, hok, hpb]
  · intro hok hpb
    rcases hpb with h | h <;> simp [getBearerToken, hcred, hok, h]
  · intro env e h
    simp [runMain, h]

/-- C6 witness: the concrete successful exchange returns its token, and a
401-style failure in a run makes it exit 1 with no fetch attempted. -/
theorem getBearerToken_spec_witness :
    getBearerToken "id" "sec" tokenRespOk tokenParseOk = .ok "tok123" :=
  ((getBearerToken_spec "id" "sec" tokenRespOk tokenParseOk (by decide)
    (by decide)).1 "tok123").mpr ⟨rfl, rfl, by decide⟩

/-- A run whose Peplink client id is blank. -/
def envBlankId : Env :=
  { envZeroOrgs with clientId := "" }

/-- C4 counterexample: `SMTP_HOST` is a required configuration value and is
blank here, yet the run performs the organization fetch, exits 0, and merely
records a missing-config outcome at send time — no fatal configuration
error is raised before any network call. -/
theorem missingSmtp_counterexample :
    envNoSmtp.smtp.host = "" ∧
    (runMain envNoSmtp).exitCode = 0 ∧
    (runMain envNoSmtp).orgFetchAttempted = true ∧
    (runMain envNoSmtp).emailOutcome = some .missingConfig :=
  ⟨rfl, rfl, rfl, rfl⟩

/-- C4 (amended): a blank `PEPLINK_CLIENT_ID` or `PEPLINK_CLIENT_SECRET` is
fatal before any network call (exit 1, no fetch attempted); the SMTP values
are checked only inside `sendEmailWithCSV`, where a blank value skips the
send with a logged message while the run still exits 0. -/
theorem config_check_spec (env : Env) :
    ((env.clientId = "" ∨ env.clientSecret = "") →
      getBearerToken env.clientId env.clientSecret env.tokenResp
        env.tokenParse = .error .missingCreds ∧
      (runMain env).exitCode = 1 ∧ (runMain env).orgFetchAttempted = false ∧
      (runMain env).devFetchAttempted = []) ∧
    (∀ o, (runMain env).emailOutcome = some o →
      (env.smtp.host = "" ∨ env.smtp.port = "" ∨ env.smtp.user = "" ∨
        env.smtp.pass = "" ∨ env.smtp.uto = "") →
      o = .missingConfig ∧ (runMain env).exitCode = 0) := by
  constructor
  · intro h
    have htok : getBearerToken env.clientId env.clientSecret env.tokenResp
        env.tokenParse = .error .missingCreds := by
      unfold getBearerToken
      rw [if_pos h]
    exact ⟨htok, by simp [runMain, htok]⟩
  · intro o ho hm
    obtain ⟨hexit, hsend⟩ := runMain_email_inv env o ho
    refine ⟨?_, hexit⟩
    rw [hsend]
    unfold sendEmailWithCSV
    rw [if_pos hm]

/-- C4 witness: a blank client id makes the concrete run exit 1 without
fetching, and the blank-SMTP run exits 0 with the missing-config outcome. -/
theorem config_check_spec_witness :
    ((runMain envBlankId).exitCode = 1 ∧
      (runMain envBlankId).orgFetchAttempted = false) ∧
    (EmailOutcome.missingConfig = .missingConfig ∧
      (runMain envNoSmtp).exitCode = 0) :=
  ⟨⟨((config_check_spec envBlankId).1 (Or.inl rfl)).2.1,
    ((config_check_spec envBlankId).1 (Or.inl rfl)).2.2.1⟩,
   (config_check_spec envNoSmtp).2 .missingConfig rfl (Or.inl rfl)⟩

/-- C5: an organization whose device fetch returns a non-2xx status
contributes zero rows while processing continues; with organizations
`[a, b]`, `a` failing and `b` succeeding with one device whose row is `r`,
the CSV is exactly the header and `r`, the email step still runs, and the
process exits 0. -/
theorem orgFailure_isolated (env : Env) (a b : OrgJson) (tok : String)
    (s : Nat) (bdy : String) (d : DeviceJson) (r : String)
    (htok : getBearerToken env.clientId env.clientSecret env.tokenResp
      env.tokenParse = .ok tok)
    (horg : env.orgResp = .ok (some [a, b]))
    (hfa : env.devResp a.id = .httpError s bdy)
    (hfb : env.devResp b.id = .ok [d])
    (hrow : deviceRow env.parseDate env.now b.name d = some r) :
    orgLines env a = [] ∧
    (runMain env).csvLines = some [csvHeader, r] ∧
    (runMain env).exitCode = 0 ∧
    (runMain env).emailOutcome.isSome = true := by
  have ha : orgLines env a = [] := by simp [orgLines, hfa]
  have hb : orgLines env b = [r] := by simp [orgLines, hfb, hrow]
  refine ⟨ha, ?_, ?_, ?_⟩ <;> simp [runMain, htok, horg, ha, hb]

/-- C5 witness: in the concrete partial-failure run, org A's 500 leaves
only Org B's row after the header, and the run exits 0. -/
theorem orgFailure_isolated_witness :
    (runMain envPartialFail).csvLines =
      some [csvHeader, "\"Org B\",\"AB1234\",\"2025-01-01\",\"45\",\"NO\""] ∧
    (runMain envPartialFail).exitCode = 0 :=
  ⟨(orgFailure_isolated envPartialFail orgA orgB "tok123" 500 "boom"
      devQualifying "\"Org B\",\"AB1234\",\"2025-01-01\",\"45\",\"NO\""
      rfl rfl rfl rfl (by decide)).2.1,
   (orgFailure_isolated envPartialFail orgA orgB "tok123" 500 "boom"
      devQualifying "\"Org B\",\"AB1234\",\"2025-01-01\",\"45\",\"NO\""
      rfl rfl rfl rfl (by decide)).2.2.1⟩

/-- C7: whenever the run reaches the CSV stage, the line list is exactly
the fixed header followed by the organizations' rows in encounter order —
so `rows + 1` lines with the header first — and every row wraps each of its
five fields in double quotes verbatim, with no escaping applied. -/
theorem csv_structure (env : Env) (orgs : List OrgJson) (tok : String)
    (htok : getBearerToken env.clientId env.clientSecret env.tokenResp
      env.tokenParse = .ok tok)
    (horg : env.orgResp = .ok (some orgs)) (hne : orgs ≠ []) :
    (runMain env).csvLines = some (csvHeader :: orgs.flatMap (orgLines env)) ∧
    (∀ lines, (runMain env).csvLines = some lines →
      lines.length = (orgs.flatMap (orgLines env)).length + 1 ∧
      lines.head? = some csvHeader ∧
      lines.drop 1 = orgs.flatMap (orgLines env)) ∧
    (∀ o sn e dl b, csvRow o sn e dl b =
      "\"" ++ o ++ "\",\"" ++ sn ++ "\",\"" ++ e ++ "\",\"" ++ toString dl
        ++ "\",\"" ++ (if b then "YES" else "NO") ++ "\"") := by
  have hemp : orgs.isEmpty = false := by
    cases orgs with
    | nil => exact absurd rfl hne
    | cons x xs => rfl
  have h1 : (runMain env).csvLines =
      some (csvHeader :: orgs.flatMap (orgLines env)) := by
    simp [runMain, htok, horg, hemp]
  refine ⟨h1, ?_, fun o sn e dl b => rfl⟩
  intro lines hl
  rw [h1] at hl
  have := (Option.some.inj hl).symm
  subst this
  simp

/-- C7 witness: the concrete one-organization run's CSV is the header
followed by that organization's single row. -/
theorem csv_structure_witness :
    (runMain envSendFails).csvLines =
      some (csvHeader :: [orgB].flatMap (orgLines envSendFails)) :=
  (csv_structure envSendFails [orgB] "tok123" rfl rfl (by simp)).1

/-- C9: if the run reaches the email step at all, its exit code is 0
regardless of the SMTP outcome; the outcome is whatever `sendEmailWithCSV`
returns, and in particular a throwing send with complete settings yields
`sendFailed` without affecting the exit code. -/
theorem smtp_failure_nonfatal (env : Env) (o : EmailOutcome)
    (ho : (runMain env).emailOutcome = some o) :
    (runMain env).exitCode = 0 ∧
    o = sendEmailWithCSV env.smtp env.smtpSendFails ∧
    ((env.smtp.host ≠ "" ∧ env.smtp.port ≠ "" ∧ env.smtp.user ≠ "" ∧
        env.smtp.pass ≠ "" ∧ env.smtp.uto ≠ "" ∧ env.smtpSendFails = true) →
      o = .sendFailed) := by
  obtain ⟨h0, hs⟩ := runMain_email_inv env o ho
  refine ⟨h0, hs, ?_⟩
  rintro ⟨h1, h2, h3, h4, h5, h6⟩
  rw [hs]
  unfold sendEmailWithCSV
  rw [if_neg (by tauto), h6]
  simp

/-- C9 witness: the concrete run whose SMTP send throws still exits 0 and
records the send failure. -/
theorem smtp_failure_nonfatal_witness :
    (runMain envSendFails).exitCode = 0 ∧
    EmailOutcome.sendFailed =
      sendEmailWithCSV envSendFails.smtp envSendFails.smtpSendFails :=
  ⟨(smtp_failure_nonfatal envSendFails .sendFailed rfl).1,
   (smtp_failure_nonfatal envSendFails .sendFailed rfl).2.1⟩

end Peplink
